import Mathlib

/-!
Shallow embedding of the Orchard_API frontend run machinery.

The embedding follows the sources:
* `src/frontend/src/app/layout.tsx` (the `TestRunPage` component: run state,
  socket event handlers, `stopRun`, `handleApprovalResponse`, `deleteStep`,
  `handleApproveHealing`),
* `src/unnamed/part_001` (the shared `types` module: `Step`,
  `WebSocketMessageType`),
* `src/unnamed/part_007` (`HealingDiff.tsx`: the `HealingSuggestion` record),
* `src/frontend/src/stores/browserStore.ts` (the zustand browser store).

TypeScript string-literal unions are embedded as `String` values, JS numbers
carrying confidence scores and timings as `ℚ`, optional fields as `Option`.
Handlers that perform network effects return the effect description next to
the new state.
-/

namespace Orchard

/-- One entry of the test-run page's `stepStatuses` list
(interface `StepStatus`, layout.tsx lines 74-83). -/
structure StepStatus where
  index : Nat
  id : Option String
  type : String
  status : String
  selector : Option String
  value : Option String
  error : Option String
  original_selector : Option String
deriving Repr, DecidableEq

/-- interface `ApprovalRequest` (layout.tsx lines 85-91). -/
structure ApprovalRequest where
  step_index : Nat
  original_selector : String
  suggested_selector : String
  confidence : ℚ
  reasoning : Option String
deriving Repr, DecidableEq

/-- The `ratings` sub-object of `PerformanceMetrics` (layout.tsx lines 102-107). -/
structure MetricRatings where
  lcp : String
  fcp : String
  cls : String
  ttfb : String
deriving Repr, DecidableEq

/-- interface `PerformanceMetrics` (layout.tsx lines 93-108). -/
structure PerformanceMetrics where
  step_index : Nat
  url : String
  ttfb : ℚ
  fcp : ℚ
  lcp : ℚ
  dom_content_loaded : ℚ
  load : ℚ
  cls : ℚ
  ratings : MetricRatings
deriving Repr, DecidableEq

/-- The optional `context` field of `HealingSuggestion`
(HealingDiff.tsx lines 16-19). -/
structure HealingContext where
  url : String
  error : String
deriving Repr, DecidableEq

/-- interface `HealingSuggestion` (HealingDiff.tsx lines 8-20). -/
structure HealingSuggestion where
  step_index : Nat
  original_selector : String
  suggested_selector : String
  confidence : ℚ
  reasoning : String
  alternative_selectors : Option (List String)
  auto_approved : Bool
  context : Option HealingContext
deriving Repr, DecidableEq

/-- interface `Step` from the shared types module (src/unnamed/part_001,
lines 47-57); only the fields the run page reads are kept. -/
structure Step where
  id : String
  type : String
  selector : Option String
  value : Option String
deriving Repr, DecidableEq

/-- The React state of the `TestRunPage` component (layout.tsx lines 147-159).
`testLoaded` stands for `test !== null`, `wsConnected` for `ws !== null`
with a live socket. -/
structure RunPageState where
  testLoaded : Bool
  screenshot : Option String
  stepStatuses : List StepStatus
  runStatus : String
  wsConnected : Bool
  error : Option String
  metrics : List PerformanceMetrics
  showMetrics : Bool
  healingSuggestions : List HealingSuggestion
  showHealing : Bool
  isHealingProcessing : Bool
  pendingApproval : Option ApprovalRequest
deriving Repr, DecidableEq

/-- Payload of a `step` event (layout.tsx lines 213-220 reads
`index`, `status`, `error`). -/
structure StepEvent where
  index : Nat
  status : String
  error : Option String
deriving Repr, DecidableEq

/-- Handler `socket.on('screenshot')` (layout.tsx lines 208-211). -/
def onScreenshot (s : RunPageState) (image : String) : RunPageState :=
  { s with screenshot := some image }

/-- Handler `socket.on('step')` (layout.tsx lines 213-220): update the
status and error of every entry whose `index` equals the event's. -/
def onStep (s : RunPageState) (e : StepEvent) : RunPageState :=
  { s with stepStatuses := s.stepStatuses.map fun st =>
      if st.index = e.index then { st with status := e.status, error := e.error } else st }

/-- Handler `socket.on('metrics')` (layout.tsx lines 222-225): append. -/
def onMetrics (s : RunPageState) (m : PerformanceMetrics) : RunPageState :=
  { s with metrics := s.metrics ++ [m] }

/-- Handler `socket.on('healing')` (layout.tsx lines 227-233): append the
suggestion; open the healing panel when it was not auto-approved. -/
def onHealing (s : RunPageState) (h : HealingSuggestion) : RunPageState :=
  { s with healingSuggestions := s.healingSuggestions ++ [h],
           showHealing := if h.auto_approved then s.showHealing else true }

/-- Handler `socket.on('approval_request')` (layout.tsx lines 235-238). -/
def onApprovalRequest (s : RunPageState) (a : ApprovalRequest) : RunPageState :=
  { s with pendingApproval := some a }

/-- Handler `socket.on('complete')` (layout.tsx lines 240-246): set the
run status from `success`, keep the failure message, disconnect. -/
def onComplete (s : RunPageState) (success : Bool) (message : String) : RunPageState :=
  { s with runStatus := if success then "passed" else "failed",
           error := if success then s.error else some message,
           wsConnected := false }

/-- Handler `socket.on('error')` (layout.tsx lines 248-254). -/
def onError (s : RunPageState) (message : String) : RunPageState :=
  { s with runStatus := "failed", error := some message, wsConnected := false }

/-- Callback `stopRun` (layout.tsx lines 261-265): disconnect and go back to `idle`. -/
def stopRun (s : RunPageState) : RunPageState :=
  { s with wsConnected := false, runStatus := "idle" }

/-- Callback `handleApprovalResponse` (layout.tsx lines 267-272): send an
`approval_response` and clear the pending request, but only when a socket is
connected and an approval is pending.  The second component is the list of
control messages sent over the socket, as (event name, `approved`) pairs. -/
def handleApprovalResponse (s : RunPageState) (approved : Bool) :
    RunPageState × List (String × Bool) :=
  if s.wsConnected && s.pendingApproval.isSome then
    ({ s with pendingApproval := none }, [("approval_response", approved)])
  else (s, [])

/-- Rebuilding `stepStatuses` from a fetched step list, as `loadTest`
(layout.tsx lines 175-184) and `deleteStep` (lines 281-291) both do. -/
def buildStepStatuses (steps : List Step) : List StepStatus :=
  steps.enum.map fun p =>
    { index := p.1, id := some p.2.id, type := p.2.type, status := "pending",
      selector := p.2.selector, value := p.2.value, error := none,
      original_selector := none }

/-- Callback `deleteStep` (layout.tsx lines 274-296): a no-op unless a test is loaded
and the run is not `running`; otherwise delete via the API and rebuild the
list from the refetched steps (`result = some steps`), or record the error
when the API call fails (`result = none`).  The second component is the id
passed to the delete API, `none` when no API call was made. -/
def deleteStep (s : RunPageState) (stepId : String) (result : Option (List Step)) :
    RunPageState × Option String :=
  if !s.testLoaded || s.runStatus == "running" then (s, none)
  else
    match result with
    | some steps => ({ s with stepStatuses := buildStepStatuses steps }, some stepId)
    | none => ({ s with error := some "Failed to delete step" }, some stepId)

/-- The persistence call `healingApi.approveSuggestionForStep(testId, step.id,
suggestion.suggested_selector)` issued by `handleApproveHealing`. -/
structure ApproveCall where
  testId : String
  stepId : String
  selector : String
deriving Repr, DecidableEq

/-- Callback `handleApproveHealing` (layout.tsx lines 298-322): when the step at
position `suggestion.step_index` exists and has an `id`, call the persistence
API with the suggested selector; when that awaited call succeeds
(`apiOk = true`), mark every suggestion for that step as `auto_approved` and
rewrite that step's `selector`, keeping the suggestion's `original_selector`;
when it rejects (`apiOk = false` is the `catch` branch, lines 317-318), only
set the error banner and change neither list.  Without a persisted id nothing
happens and no call is made.  `isHealingProcessing` ends `false` on every
path (the `finally` block). -/
def handleApproveHealing (testId : String) (s : RunPageState)
    (sugg : HealingSuggestion) (apiOk : Bool) : RunPageState × Option ApproveCall :=
  match s.stepStatuses[sugg.step_index]?.bind StepStatus.id with
  | some stepId =>
      if apiOk then
        ({ s with
            healingSuggestions := s.healingSuggestions.map fun h =>
              if h.step_index = sugg.step_index then { h with auto_approved := true } else h,
            stepStatuses := s.stepStatuses.map fun st =>
              if st.index = sugg.step_index then
                { st with selector := some sugg.suggested_selector,
                          original_selector := some sugg.original_selector }
              else st,
            isHealingProcessing := false },
         some { testId := testId, stepId := stepId, selector := sugg.suggested_selector })
      else
        ({ s with error := some "Failed to apply healing suggestion",
                  isHealingProcessing := false },
         some { testId := testId, stepId := stepId, selector := sugg.suggested_selector })
  | none => ({ s with isHealingProcessing := false }, none)

/-- Callback `startRun` (layout.tsx lines 193-259): reset the per-run state, mark every
step `pending`, then connect the socket; `connectOk = false` is the `catch`
branch of the connection attempt. -/
def startRun (s : RunPageState) (connectOk : Bool) : RunPageState :=
  if !s.testLoaded then s
  else
    let s1 : RunPageState :=
      { s with
          runStatus := "running"
          error := none
          metrics := []
          healingSuggestions := []
          showHealing := false
          stepStatuses := s.stepStatuses.map fun st => { st with status := "pending" } }
    if connectOk then { s1 with wsConnected := true }
    else { s1 with runStatus := "failed", error := some "Failed to start test run" }

/-- The closed set of events for which `startRun` registers handlers on the
per-run socket (layout.tsx lines 208-254), as a tagged union. -/
inductive RunEvent where
  | screenshot (image : String)
  | step (e : StepEvent)
  | metrics (m : PerformanceMetrics)
  | healing (h : HealingSuggestion)
  | approvalRequest (a : ApprovalRequest)
  | complete (success : Bool) (message : String)
  | error (message : String)
deriving Repr, DecidableEq

/-- The wire name of each per-run event, as registered in `startRun`. -/
def RunEvent.typeName : RunEvent → String
  | .screenshot _ => "screenshot"
  | .step _ => "step"
  | .metrics _ => "metrics"
  | .healing _ => "healing"
  | .approvalRequest _ => "approval_request"
  | .complete _ _ => "complete"
  | .error _ => "error"

/-- Modelled from the spec: the socket transport (`TestRunnerWebSocket` in
`lib/api`, which is not present under `src/`) delivers an event to the
handlers registered in `startRun` only while the socket is connected; after
`disconnect()` no further events are delivered (§4.5/§6: the stream is
terminal after `complete`/`error`).  The handler bodies themselves are taken
from layout.tsx lines 208-254. -/
def deliver (s : RunPageState) (ev : RunEvent) : RunPageState :=
  if s.wsConnected then
    match ev with
    | .screenshot img => onScreenshot s img
    | .step e => onStep s e
    | .metrics m => onMetrics s m
    | .healing h => onHealing s h
    | .approvalRequest a => onApprovalRequest s a
    | .complete ok msg => onComplete s ok msg
    | .error msg => onError s msg
  else s

/-- Deliver a whole event sequence in order. -/
def deliverAll (s : RunPageState) (evs : List RunEvent) : RunPageState :=
  evs.foldl deliver s

/-- Whether an event is run-terminal (`complete` or `error`). -/
def isTerminal : RunEvent → Bool
  | .complete _ _ => true
  | .error _ => true
  | _ => false

/-- Number of terminal events of a sequence that are actually processed by a
connected client. -/
def terminalsProcessed : RunPageState → List RunEvent → Nat
  | _, [] => 0
  | s, ev :: evs =>
      (if s.wsConnected && isTerminal ev then 1 else 0)
        + terminalsProcessed (deliver s ev) evs

/-- The inline metrics indicator of the steps view (layout.tsx lines
576-588): the entry at position `i` shows metrics exactly when some metric
record carries `step_index = i` and the step's type is `navigate`. -/
def inlineMetricsShown (steps : List StepStatus) (ms : List PerformanceMetrics)
    (i : Nat) : Bool :=
  match steps[i]? with
  | some st => (ms.find? fun m => m.step_index == i).isSome && st.type == "navigate"
  | none => false

/-- The `WebSocketMessageType` string union declared in the shared types
module (src/unnamed/part_001, lines 100-106). -/
def webSocketMessageTypes : List String :=
  ["chat", "status", "screenshot", "action", "complete", "error"]

/-- The event names for which the test-run page registers handlers in
`startRun` (layout.tsx lines 208-254). -/
def testRunHandledTypes : List String :=
  ["screenshot", "step", "metrics", "healing", "approval_request", "complete", "error"]

/-- Modelled from the spec: the eight message types §6 declares for the
per-run event stream (this list follows the spec's words, for comparison
with the definitions taken from the code). -/
def specEventTypes : List String :=
  ["status", "screenshot", "step", "metrics", "healing", "approval_request",
   "complete", "error"]

/-- Modelled from the spec: the `HealingPolicy` configuration (§3), which is
backend configuration not present under `src/`. -/
structure HealingPolicy where
  enabled : Bool
  autoApprove : Bool
  autoApproveThreshold : ℚ
  mode : String
deriving Repr, DecidableEq

/-- Modelled from the spec: the backend Healing Coordinator's decision rule
(§4.3, `autoApproved = policy.enabled AND policy.autoApprove AND
confidence ≥ policy.autoApproveThreshold`); the coordinator itself is not
present under `src/`. -/
def coordinatorAutoApproved (policy : HealingPolicy) (confidence : ℚ) : Bool :=
  policy.enabled && policy.autoApprove
    && decide (policy.autoApproveThreshold ≤ confidence)

/-- Modelled from the spec: the `HealingSuggestion` the backend Healing
Coordinator emits on a healing event, its `auto_approved` flag set by the
decision rule (§4.3). -/
def mkHealingSuggestion (policy : HealingPolicy) (stepIndex : Nat)
    (orig sug : String) (confidence : ℚ) (reasoning : String)
    (alts : Option (List String)) (ctx : Option HealingContext) :
    HealingSuggestion :=
  { step_index := stepIndex, original_selector := orig,
    suggested_selector := sug, confidence := confidence,
    reasoning := reasoning, alternative_selectors := alts,
    auto_approved := coordinatorAutoApproved policy confidence, context := ctx }

/-- State of the zustand browser store
(src/frontend/src/stores/browserStore.ts, lines 14-17). -/
structure BrowserStoreState where
  status : String
  screenshot : Option String
  currentUrl : Option String
deriving Repr, DecidableEq

/-- The store's creation-time initial state (browserStore.ts lines 15-17). -/
def initialBrowserState : BrowserStoreState :=
  { status := "idle", screenshot := none, currentUrl := none }

namespace BrowserStore

/-- Action `setStatus` (browserStore.ts line 19). -/
def setStatus (s : BrowserStoreState) (status : String) : BrowserStoreState :=
  { s with status := status }

/-- Action `setScreenshot` (browserStore.ts line 21). -/
def setScreenshot (s : BrowserStoreState) (screenshot : String) : BrowserStoreState :=
  { s with screenshot := some screenshot }

/-- Action `setCurrentUrl` (browserStore.ts line 23). -/
def setCurrentUrl (s : BrowserStoreState) (url : String) : BrowserStoreState :=
  { s with currentUrl := some url }

/-- Action `reset` (browserStore.ts lines 25-29). -/
def reset (_s : BrowserStoreState) : BrowserStoreState :=
  { status := "idle", screenshot := none, currentUrl := none }

end BrowserStore

/-- The mutating store operations a caller can issue before a `reset`. -/
inductive BrowserOp where
  | setStatus (status : String)
  | setScreenshot (screenshot : String)
  | setCurrentUrl (url : String)
deriving Repr, DecidableEq

/-- Apply one store operation. -/
def applyBrowserOp (s : BrowserStoreState) : BrowserOp → BrowserStoreState
  | .setStatus st => BrowserStore.setStatus s st
  | .setScreenshot img => BrowserStore.setScreenshot s img
  | .setCurrentUrl url => BrowserStore.setCurrentUrl s url

/-- Apply a finite sequence of store operations. -/
def runBrowserOps (s : BrowserStoreState) (ops : List BrowserOp) : BrowserStoreState :=
  ops.foldl applyBrowserOp s

/-! ### Concrete fixtures used by witnesses and counterexamples -/

/-- A click step whose stored selector is `#current`. -/
def sampleStep0 : StepStatus :=
  { index := 0, id := some "step-1", type := "click", status := "running",
    selector := some "#current", value := none, error := none,
    original_selector := none }

/-- A low-confidence suggestion (confidence 1/2) for step 0, not
auto-approved; its `original_selector` is the selector that failed when the
suggestion was generated. -/
def lowConfSuggestion : HealingSuggestion :=
  { step_index := 0, original_selector := "#orig", suggested_selector := "#new",
    confidence := 1/2, reasoning := "renamed", alternative_selectors := none,
    auto_approved := false, context := none }

/-- A pending approval request for step 0. -/
def sampleApproval : ApprovalRequest :=
  { step_index := 0, original_selector := "#current",
    suggested_selector := "#new", confidence := 1/2, reasoning := some "renamed" }

/-- A healing policy with auto-approval enabled at threshold 0.85. -/
def samplePolicy : HealingPolicy :=
  { enabled := true, autoApprove := true, autoApproveThreshold := 85/100,
    mode := "inline" }

/-- A mid-run page state: the run is `running`, the socket connected, one
step in flight, one low-confidence suggestion surfaced and one approval
pending. -/
def runningState : RunPageState :=
  { testLoaded := true, screenshot := none, stepStatuses := [sampleStep0],
    runStatus := "running", wsConnected := true, error := none, metrics := [],
    showMetrics := false, healingSuggestions := [lowConfSuggestion],
    showHealing := true, isHealingProcessing := false,
    pendingApproval := some sampleApproval }

/-- A completed navigate step, for the inline-metrics display. -/
def navStep : StepStatus :=
  { index := 0, id := some "step-nav", type := "navigate", status := "passed",
    selector := none, value := some "https://example.test/login", error := none,
    original_selector := none }

/-- A metrics record for step 0. -/
def sampleMetric : PerformanceMetrics :=
  { step_index := 0, url := "https://example.test/login", ttfb := 120,
    fcp := 800, lcp := 1500, dom_content_loaded := 900, load := 1700,
    cls := 1/20,
    ratings := { lcp := "good", fcp := "good", cls := "good", ttfb := "good" } }

/-! ### Shared helper lemmas -/

/-- Delivery is the identity on a disconnected client. -/
lemma deliver_disconnected (s : RunPageState) (ev : RunEvent)
    (h : s.wsConnected = false) : deliver s ev = s := by
  simp [deliver, h]

/-- A whole sequence delivered to a disconnected client changes nothing. -/
lemma deliverAll_disconnected (evs : List RunEvent) :
    ∀ s : RunPageState, s.wsConnected = false → deliverAll s evs = s := by
  induction evs with
  | nil => intro s _; rfl
  | cons ev evs ih =>
      intro s h
      show deliverAll (deliver s ev) evs = s
      rw [deliver_disconnected s ev h]
      exact ih s h

/-- A disconnected client processes no terminal event. -/
lemma terminalsProcessed_disconnected (evs : List RunEvent) :
    ∀ s : RunPageState, s.wsConnected = false → terminalsProcessed s evs = 0 := by
  induction evs with
  | nil => intro s _; rfl
  | cons ev evs ih =>
      intro s h
      show (if s.wsConnected && isTerminal ev then 1 else 0)
            + terminalsProcessed (deliver s ev) evs = 0
      rw [h, deliver_disconnected s ev h]
      simp [ih s h]

/-- Processing a terminal event on a connected client disconnects it. -/
lemma terminal_disconnects (s : RunPageState) (ev : RunEvent)
    (hc : s.wsConnected = true) (ht : isTerminal ev = true) :
    (deliver s ev).wsConnected = false := by
  cases ev with
  | complete ok msg => simp [deliver, hc, onComplete]
  | error msg => simp [deliver, hc, onError]
  | screenshot img => simp [isTerminal] at ht
  | step e => simp [isTerminal] at ht
  | metrics m => simp [isTerminal] at ht
  | healing h => simp [isTerminal] at ht
  | approvalRequest a => simp [isTerminal] at ht

/-- No handler changes the key data (position index, persisted id, step kind)
of the step list: mapping a key-preserving function preserves the keyed view. -/
lemma map_stepKey_of_preserving (f : StepStatus → StepStatus)
    (hf : ∀ st, ((f st).index, (f st).id, (f st).type) = (st.index, st.id, st.type))
    (l : List StepStatus) :
    (l.map f).map (fun st => (st.index, st.id, st.type))
      = l.map (fun st => (st.index, st.id, st.type)) := by
  rw [List.map_map]
  exact List.map_eq_map_iff.mpr fun st _ => hf st

/-- Mapping a function that fixes every element of a list is the identity. -/
lemma map_id_of_fixes (f : StepStatus → StepStatus) (l : List StepStatus)
    (h : ∀ st ∈ l, f st = st) : l.map f = l := by
  calc l.map f = l.map id := List.map_eq_map_iff.mpr h
  _ = l := List.map_id l

/-! ### Claim theorems -/

/-- C10: `reset` restores exactly the initial store state — status `idle`,
screenshot `null`, currentUrl `null` — after any finite sequence of
`setStatus`, `setScreenshot` and `setCurrentUrl` operations; it is idempotent
and its result is independent of the history. -/
theorem browser_reset_restores_initial :
    (∀ ops : List BrowserOp,
       BrowserStore.reset (runBrowserOps initialBrowserState ops)
         = initialBrowserState) ∧
    (∀ s : BrowserStoreState,
       BrowserStore.reset (BrowserStore.reset s) = BrowserStore.reset s) ∧
    (∀ s t : BrowserStoreState, BrowserStore.reset s = BrowserStore.reset t) :=
  ⟨fun _ => rfl, fun _ => rfl, fun _ _ => rfl⟩

/-- C2 counterexample: from a running state, `stopRun` yields run status
`idle`, not `stopped` — the test-run page has no `stopped` run status. -/
theorem stopRun_yields_idle_not_stopped :
    (stopRun runningState).runStatus = "idle" ∧
    (stopRun runningState).runStatus ≠ "stopped" := by
  decide

/-- C2 (amended): `stopRun` disconnects the socket and sets the run-level
status to `idle` (not `stopped`); it records no step result — the step-status
list is untouched — and after the disconnect no further events are
processed. -/
theorem stopRun_idle_and_records_no_result :
    ∀ s : RunPageState,
      (stopRun s).runStatus = "idle" ∧
      (stopRun s).stepStatuses = s.stepStatuses ∧
      (stopRun s).wsConnected = false ∧
      ∀ evs : List RunEvent, deliverAll (stopRun s) evs = stopRun s := by
  intro s
  exact ⟨rfl, rfl, rfl, fun evs => deliverAll_disconnected evs _ rfl⟩

/-- C5: `handleApprovalResponse` sends nothing and changes nothing when no
socket is connected or no approval is pending; when one is pending it sends
exactly one `approval_response` and clears the pending request, so a second
invocation sends nothing. -/
theorem approvalResponse_only_when_pending :
    ∀ (s : RunPageState) (b : Bool),
      ((s.wsConnected = false ∨ s.pendingApproval = none) →
         handleApprovalResponse s b = (s, [])) ∧
      (∀ a : ApprovalRequest, s.wsConnected = true → s.pendingApproval = some a →
         handleApprovalResponse s b
             = ({ s with pendingApproval := none }, [("approval_response", b)]) ∧
           ∀ b' : Bool,
             handleApprovalResponse { s with pendingApproval := none } b'
               = ({ s with pendingApproval := none }, [])) := by
  intro s b
  constructor
  · rintro (h | h) <;> simp [handleApprovalResponse, h]
  · intro a hc hp
    constructor
    · simp [handleApprovalResponse, hc, hp]
    · intro b'
      simp [handleApprovalResponse]

/-- C5 witness: on the concrete mid-run state with a pending approval, the
response is sent once and the pending request is cleared. -/
theorem approvalResponse_witness :
    handleApprovalResponse runningState true
      = ({ runningState with pendingApproval := none },
         [("approval_response", true)]) :=
  ((approvalResponse_only_when_pending runningState true).2 sampleApproval
    rfl rfl).1

/-- C7: a `metrics` event appends exactly one record and leaves the run
status, the step statuses, the healing suggestions, the error and the pending
approval unchanged; the inline metrics indicator attaches metrics to
`navigate` steps only. -/
theorem metrics_event_appends_only :
    ∀ (s : RunPageState) (m : PerformanceMetrics),
      (onMetrics s m).metrics = s.metrics ++ [m] ∧
      (onMetrics s m).runStatus = s.runStatus ∧
      (onMetrics s m).stepStatuses = s.stepStatuses ∧
      (onMetrics s m).healingSuggestions = s.healingSuggestions ∧
      (onMetrics s m).error = s.error ∧
      (onMetrics s m).pendingApproval = s.pendingApproval ∧
      ∀ (steps : List StepStatus) (ms : List PerformanceMetrics) (i : Nat)
        (st : StepStatus),
        steps[i]? = some st → inlineMetricsShown steps ms i = true →
          st.type = "navigate" := by
  intro s m
  refine ⟨rfl, rfl, rfl, rfl, rfl, rfl, ?_⟩
  intro steps ms i st hget hshown
  unfold inlineMetricsShown at hshown
  rw [hget] at hshown
  exact eq_of_beq ((Bool.and_eq_true _ _).mp hshown).2

/-- C7 witness: on the concrete state, the metric is appended, and the inline
indicator for the concrete navigate step is shown for a navigate step. -/
theorem metrics_event_witness :
    (onMetrics runningState sampleMetric).metrics
        = runningState.metrics ++ [sampleMetric] ∧
    navStep.type = "navigate" :=
  ⟨(metrics_event_appends_only runningState sampleMetric).1,
   (metrics_event_appends_only runningState sampleMetric).2.2.2.2.2.2
     [navStep] [sampleMetric] 0 navStep rfl (by decide)⟩

/-- C9: a `step` event with index `i` changes only the `status` and `error`
fields of entries whose `index` is `i`; every other entry and all other
fields are unchanged, the length is unchanged, and when no entry matches the
whole list is unchanged. -/
theorem step_event_updates_only_matching :
    ∀ (s : RunPageState) (e : StepEvent),
      (onStep s e).stepStatuses.length = s.stepStatuses.length ∧
      (∀ (j : Nat) (old : StepStatus), s.stepStatuses[j]? = some old →
        (old.index ≠ e.index → (onStep s e).stepStatuses[j]? = some old) ∧
        (old.index = e.index →
          (onStep s e).stepStatuses[j]?
            = some { old with status := e.status, error := e.error })) ∧
      ((∀ st ∈ s.stepStatuses, st.index ≠ e.index) →
        (onStep s e).stepStatuses = s.stepStatuses) := by
  intro s e
  refine ⟨by simp [onStep], ?_, ?_⟩
  · intro j old hget
    constructor
    · intro hne
      simp only [onStep]
      rw [List.getElem?_map, hget]
      simp [hne]
    · intro heq
      simp only [onStep]
      rw [List.getElem?_map, hget]
      simp [heq]
  · intro hnone
    simp only [onStep]
    exact map_id_of_fixes _ _ fun st hst => by rw [if_neg (hnone st hst)]

/-- C9 witness: a concrete `step` event for index 0 updates the single
matching entry's status and error and nothing else. -/
theorem step_event_witness :
    (onStep runningState { index := 0, status := "passed", error := none
      }).stepStatuses[0]?
      = some { sampleStep0 with status := "passed", error := none } :=
  ((step_event_updates_only_matching runningState
      { index := 0, status := "passed", error := none }).2.1 0 sampleStep0
      rfl).2 rfl

/-- C3: at most one terminal event (`complete` or `error`) is ever processed
for a run; and when a connected client processes a terminal event, exactly
one terminal event of the remaining stream is processed and no later event of
any kind changes the state. -/
theorem terminal_event_unique_and_last :
    (∀ (s : RunPageState) (evs : List RunEvent), terminalsProcessed s evs ≤ 1) ∧
    (∀ (s : RunPageState) (ev : RunEvent) (evs : List RunEvent),
       s.wsConnected = true → isTerminal ev = true →
         deliverAll (deliver s ev) evs = deliver s ev ∧
         terminalsProcessed s (ev :: evs) = 1) := by
  constructor
  · intro s evs
    induction evs generalizing s with
    | nil => simp [terminalsProcessed]
    | cons ev evs ih =>
        show (if s.wsConnected && isTerminal ev then 1 else 0)
              + terminalsProcessed (deliver s ev) evs ≤ 1
        cases hcb : s.wsConnected with
        | false => simpa [hcb] using ih (deliver s ev)
        | true =>
            cases htb : isTerminal ev with
            | false => simpa [hcb, htb] using ih (deliver s ev)
            | true =>
                have hd := terminal_disconnects s ev hcb htb
                simp [hcb, htb, terminalsProcessed_disconnected evs _ hd]
  · intro s ev evs hc ht
    have hd := terminal_disconnects s ev hc ht
    refine ⟨deliverAll_disconnected evs _ hd, ?_⟩
    show (if s.wsConnected && isTerminal ev then 1 else 0)
          + terminalsProcessed (deliver s ev) evs = 1
    rw [terminalsProcessed_disconnected evs _ hd]
    simp [hc, ht]

/-- C3 witness: a connected client processing a concrete `complete` event
ignores a subsequent `step` event, and exactly one terminal event of the
two-event stream is processed. -/
theorem terminal_event_witness :
    deliverAll (deliver runningState (RunEvent.complete true "done"))
        [RunEvent.step { index := 0, status := "passed", error := none }]
      = deliver runningState (RunEvent.complete true "done") ∧
    terminalsProcessed runningState
        (RunEvent.complete true "done"
          :: [RunEvent.step { index := 0, status := "passed", error := none }])
      = 1 :=
  terminal_event_unique_and_last.2 runningState (RunEvent.complete true "done")
    [RunEvent.step { index := 0, status := "passed", error := none }] rfl rfl

/-- C8: while the run status is `running`, `deleteStep` is a no-op that makes
no API call, and every operation of the test-run page — event delivery,
healing approval, approval responses, `stopRun`, `startRun` — preserves the
step list's length and its position-to-(index, id, kind) mapping. -/
theorem steps_immutable_while_running :
    ∀ s : RunPageState, s.runStatus = "running" →
      (∀ (stepId : String) (result : Option (List Step)),
         deleteStep s stepId result = (s, none)) ∧
      (∀ ev : RunEvent,
         (deliver s ev).stepStatuses.map (fun st => (st.index, st.id, st.type))
           = s.stepStatuses.map (fun st => (st.index, st.id, st.type))) ∧
      (∀ (tid : String) (sugg : HealingSuggestion) (apiOk : Bool),
         (handleApproveHealing tid s sugg apiOk).1.stepStatuses.map
             (fun st => (st.index, st.id, st.type))
           = s.stepStatuses.map (fun st => (st.index, st.id, st.type))) ∧
      (∀ b : Bool, (handleApprovalResponse s b).1.stepStatuses = s.stepStatuses) ∧
      (stopRun s).stepStatuses = s.stepStatuses ∧
      (∀ ok : Bool,
         (startRun s ok).stepStatuses.map (fun st => (st.index, st.id, st.type))
           = s.stepStatuses.map (fun st => (st.index, st.id, st.type))) := by
  intro s h
  refine ⟨?_, ?_, ?_, ?_, rfl, ?_⟩
  · intro stepId result
    simp [deleteStep, h]
  · intro ev
    cases hcb : s.wsConnected with
    | false => rw [deliver_disconnected s ev hcb]
    | true =>
        cases ev with
        | step e =>
            simp only [deliver, hcb, if_true, onStep]
            exact map_stepKey_of_preserving _
              (fun st => by by_cases hst : st.index = e.index <;> simp [hst]) _
        | screenshot img => simp [deliver, hcb, onScreenshot]
        | metrics m => simp [deliver, hcb, onMetrics]
        | healing hs => simp [deliver, hcb, onHealing]
        | approvalRequest a => simp [deliver, hcb, onApprovalRequest]
        | complete ok msg => simp [deliver, hcb, onComplete]
        | error msg => simp [deliver, hcb, onError]
  · intro tid sugg apiOk
    cases hmatch : s.stepStatuses[sugg.step_index]?.bind StepStatus.id with
    | some stepId =>
        cases apiOk with
        | true =>
            simp only [handleApproveHealing, hmatch, if_true]
            exact map_stepKey_of_preserving _
              (fun st => by by_cases hst : st.index = sugg.step_index <;> simp [hst]) _
        | false => simp [handleApproveHealing, hmatch]
    | none => simp [handleApproveHealing, hmatch]
  · intro b
    by_cases hcond : (s.wsConnected && s.pendingApproval.isSome) = true <;>
      simp [handleApprovalResponse, hcond]
  · intro ok
    by_cases hload : s.testLoaded = true
    · have hmap := map_stepKey_of_preserving
        (fun st => { st with status := "pending" }) (fun st => rfl) s.stepStatuses
      cases ok <;> simp [startRun, hload, hmap]
    · simp only [Bool.not_eq_true] at hload
      simp [startRun, hload]

/-- C8 witness: on the concrete running state, deleting a step is refused
without an API call. -/
theorem steps_immutable_witness :
    deleteStep runningState "step-1" none = (runningState, none) :=
  (steps_immutable_while_running runningState rfl).1 "step-1" none

/-- C4 counterexample: the spec's eight-type event set matches neither the
declared `WebSocketMessageType` union (which lacks `step` and contains
`chat`) nor the set of events the test-run page handles (which lacks
`status`). -/
theorem declared_event_types_differ_from_spec :
    ("step" ∈ specEventTypes ∧ "step" ∉ webSocketMessageTypes) ∧
    ("chat" ∈ webSocketMessageTypes ∧ "chat" ∉ specEventTypes) ∧
    ("status" ∈ specEventTypes ∧ "status" ∉ testRunHandledTypes) := by
  decide

/-- C4 (amended): the test-run event stream handles exactly the seven kinds
{screenshot, step, metrics, healing, approval_request, complete, error} — the
spec's eight minus `status` — while the declared `WebSocketMessageType` union
is {chat, status, screenshot, action, complete, error}, sharing only
{status, screenshot, complete, error} with the spec's set. -/
theorem run_event_types_characterization :
    (∀ ev : RunEvent, ev.typeName ∈ testRunHandledTypes) ∧
    specEventTypes = "status" :: testRunHandledTypes ∧
    webSocketMessageTypes.inter specEventTypes
      = ["status", "screenshot", "complete", "error"] := by
  refine ⟨?_, by decide, by decide⟩
  intro ev
  cases ev <;> simp [RunEvent.typeName, testRunHandledTypes]

/-- C6 counterexample: the approve action records the suggestion's
`original_selector` (`#orig`), not the step's previous selector (`#current`),
so when the two differ — e.g. after an earlier heal of the same step — the
recorded `original_selector` is not the previous selector. -/
theorem approve_records_suggestion_original :
    ((handleApproveHealing "t-1" runningState lowConfSuggestion
        true).1.stepStatuses.map StepStatus.original_selector
      = [some "#orig"]) ∧
    runningState.stepStatuses.map StepStatus.selector = [some "#current"] ∧
    ("#orig" : String) ≠ "#current" := by
  decide

/-- C6 (amended): a `healing` event alone never changes any step's stored
selector; the explicit approve action, when the step at the suggestion's
index has a persisted id, calls the persistence API with the suggested
selector for exactly that step, and when the call succeeds rewrites exactly
that step's selector, recording the suggestion's original selector (the one
that failed) as `original_selector`; when the call fails it only sets the
error banner and rewrites no selector; without a persisted id it does nothing
and makes no API call. -/
theorem healing_persisted_only_via_approve :
    (∀ (s : RunPageState) (h : HealingSuggestion),
       (onHealing s h).stepStatuses = s.stepStatuses) ∧
    (∀ (tid : String) (s : RunPageState) (sugg : HealingSuggestion)
       (stepId : String),
       s.stepStatuses[sugg.step_index]?.bind StepStatus.id = some stepId →
         (handleApproveHealing tid s sugg true).2
             = some { testId := tid, stepId := stepId,
                      selector := sugg.suggested_selector } ∧
         (∀ (j : Nat) (old : StepStatus), s.stepStatuses[j]? = some old →
           (handleApproveHealing tid s sugg true).1.stepStatuses[j]?
             = some (if old.index = sugg.step_index
                     then { old with
                              selector := some sugg.suggested_selector,
                              original_selector := some sugg.original_selector }
                     else old)) ∧
         handleApproveHealing tid s sugg false
           = ({ s with error := some "Failed to apply healing suggestion",
                       isHealingProcessing := false },
              some { testId := tid, stepId := stepId,
                     selector := sugg.suggested_selector })) ∧
    (∀ (tid : String) (s : RunPageState) (sugg : HealingSuggestion)
       (apiOk : Bool),
       s.stepStatuses[sugg.step_index]?.bind StepStatus.id = none →
         handleApproveHealing tid s sugg apiOk
           = ({ s with isHealingProcessing := false }, none)) := by
  refine ⟨fun s h => rfl, ?_, ?_⟩
  · intro tid s sugg stepId hid
    refine ⟨by simp [handleApproveHealing, hid], ?_, by simp [handleApproveHealing, hid]⟩
    intro j old hget
    simp only [handleApproveHealing, hid, if_true]
    rw [List.getElem?_map, hget]
    rfl
  · intro tid s sugg apiOk hid
    simp [handleApproveHealing, hid]

/-- C6 witness: on the concrete state, approving the suggestion calls the
persistence API with the step's id and the suggested selector. -/
theorem healing_approve_witness :
    (handleApproveHealing "t-1" runningState lowConfSuggestion true).2
      = some { testId := "t-1", stepId := "step-1", selector := "#new" } :=
  (healing_persisted_only_via_approve.2.1 "t-1" runningState lowConfSuggestion
    "step-1" rfl).1

/-- C1 counterexample: the manual approve action marks a suggestion whose
confidence (1/2) is below the policy threshold (0.85) as
`auto_approved = true`, although the policy has auto-approve enabled at that
threshold — refuting the invariant for suggestions held after a manual
approval. -/
theorem manual_approve_below_threshold :
    runningState.healingSuggestions.map HealingSuggestion.auto_approved
        = [false] ∧
    ((handleApproveHealing "t-1" runningState lowConfSuggestion
        true).1.healingSuggestions.map HealingSuggestion.auto_approved
      = [true]) ∧
    lowConfSuggestion.confidence < samplePolicy.autoApproveThreshold ∧
    samplePolicy.enabled = true ∧ samplePolicy.autoApprove = true := by
  refine ⟨rfl, rfl, ?_, rfl, rfl⟩
  show (1 : ℚ)/2 < 85/100
  norm_num

/-- C1 (amended): a suggestion created by the coordinator's decision rule has
`auto_approved = true` only when the policy is enabled with auto-approve and
the confidence reaches the threshold; but the manual approve action, when its
persistence call succeeds, re-marks every held suggestion for the approved
step as `auto_approved = true` regardless of its confidence, leaving
suggestions for other steps untouched; when the persistence call fails no
suggestion is re-marked. -/
theorem auto_approved_flag_semantics :
    (∀ (policy : HealingPolicy) (i : Nat) (orig sug : String) (c : ℚ)
       (rsn : String) (alts : Option (List String))
       (ctx : Option HealingContext),
       (mkHealingSuggestion policy i orig sug c rsn alts ctx).auto_approved
           = true →
         policy.enabled = true ∧ policy.autoApprove = true ∧
           policy.autoApproveThreshold ≤ c) ∧
    (∀ (tid : String) (s : RunPageState) (sugg : HealingSuggestion),
       (s.stepStatuses[sugg.step_index]?.bind StepStatus.id).isSome = true →
         (∀ (j : Nat) (old : HealingSuggestion),
           s.healingSuggestions[j]? = some old →
             (handleApproveHealing tid s sugg true).1.healingSuggestions[j]?
               = some (if old.step_index = sugg.step_index
                       then { old with auto_approved := true } else old)) ∧
         (handleApproveHealing tid s sugg false).1.healingSuggestions
           = s.healingSuggestions) := by
  constructor
  · intro policy i orig sug c rsn alts ctx h
    simp only [mkHealingSuggestion, coordinatorAutoApproved, Bool.and_eq_true,
      decide_eq_true_eq] at h
    exact ⟨h.1.1, h.1.2, h.2⟩
  · intro tid s sugg hsome
    obtain ⟨stepId, hid⟩ := Option.isSome_iff_exists.mp hsome
    constructor
    · intro j old hget
      simp only [handleApproveHealing, hid, if_true]
      rw [List.getElem?_map, hget]
      rfl
    · simp [handleApproveHealing, hid]

/-- C1 witness: on the concrete state, manual approval (with the persistence
call succeeding) turns the held low-confidence suggestion's flag to `true`. -/
theorem auto_approved_flag_witness :
    (handleApproveHealing "t-1" runningState lowConfSuggestion
        true).1.healingSuggestions[0]?
      = some { lowConfSuggestion with auto_approved := true } := by
  have h := (auto_approved_flag_semantics.2 "t-1" runningState lowConfSuggestion
    rfl).1 0 lowConfSuggestion rfl
  simpa using h

end Orchard
